import Mathlib

/-!
Shallow embedding of the Govt-job-alert-bot repository (src/bot.py and
src/scraper.py) and proofs about it.  Python strings are modelled as
`List Char`; the helper functions below mirror the Python string
operations used by the code.  `namespace Bot` holds the embedding of
src/bot.py and `namespace Scraper` the embedding of src/scraper.py.
-/

namespace GovtJobBot

/-- ASCII whitespace recognised by Python `str.strip` and the regex class \s. -/
def pySpace (c : Char) : Bool :=
  c = ' ' || c = '\t' || c = '\n' || c = '\r' || c = '\x0b' || c = '\x0c'

/-- Python `str.upper` (ASCII). -/
def pyUpper (t : List Char) : List Char := t.map Char.toUpper

/-- Python `str.strip()`: drop leading and trailing whitespace. -/
def pyStrip (t : List Char) : List Char :=
  ((t.dropWhile pySpace).reverse.dropWhile pySpace).reverse

/-- `headMatch needle hay` holds when `needle` is an initial segment of `hay`. -/
def headMatch : List Char → List Char → Bool
  | [], _ => true
  | _ :: _, [] => false
  | c :: cs, d :: ds => c = d && headMatch cs ds

/-- `occursIn needle hay` holds when `needle` occurs contiguously in `hay`. -/
def occursIn (needle : List Char) : List Char → Bool
  | [] => headMatch needle []
  | d :: ds => headMatch needle (d :: ds) || occursIn needle ds

/-- Python `needle in hay` substring test on strings. -/
def containsSub (hay needle : List Char) : Bool := occursIn needle hay

/-- Python `a or b` where `a` and `b` are strings: the empty string is falsy. -/
def pyOr (a b : List Char) : List Char := if a = [] then b else a

/-- Convert a Lean string literal to the `List Char` model of a Python string. -/
def toCL (s : String) : List Char := s.toList

/-!
Hand-compiled matchers for the `re.search` patterns of `_extract_date`.
Each pattern becomes a matcher `List Char → Option (List Char)` returning the
text of the pattern's reported group when the pattern matches at the current
position; `searchPos` supplies `re.search`'s leftmost-position scan.  The
greedy counted repetition `\d{1,2}` can be forced to backtrack by the
separator that follows it, so it is realised by trying the longer take first
(`digitTakeChoices`); the repetitions whose following element is disjoint
from their own character class (`[:\s]+`, `\s+`, `[a-z]*`, and the
pattern-final year digits) are maximal munch.
-/

/-- The regex separator class (dash, slash or dot) between date digits. -/
def sepChar (c : Char) : Bool := c = '-' || c = '/' || c = '.'

/-- The regex class `[:\s]` following a date label. -/
def colonSpace (c : Char) : Bool := c = ':' || pySpace c

/-- Candidate splits for the greedy repetition `\d{lo,hi}`, longest first. -/
def digitTakeChoices (lo hi : Nat) (cs : List Char) : List (List Char × List Char) :=
  let n := min (cs.takeWhile Char.isDigit).length hi
  ((List.range (n + 1)).reverse).filterMap fun k =>
    if lo ≤ k then some (cs.take k, cs.drop k) else none

/-- Try a continuation on each candidate split in order, first success wins. -/
def tryChoices {α : Type} (f : List Char × List Char → Option α) :
    List (List Char × List Char) → Option α
  | [] => none
  | c :: cs =>
    match f c with
    | some r => some r
    | none => tryChoices f cs

/-- One separator character (dash, slash or dot). -/
def matchSep : List Char → Option (Char × List Char)
  | [] => none
  | c :: rest => if sepChar c then some (c, rest) else none

/-- The pattern-final repetition `\d{lo,hi}`: maximal munch capped at `hi`. -/
def matchYear (lo hi : Nat) (cs : List Char) : Option (List Char × List Char) :=
  let n := min (cs.takeWhile Char.isDigit).length hi
  if lo ≤ n then some (cs.take n, cs.drop n) else none

/-- A literal, compared case-insensitively (`re.IGNORECASE`). -/
def matchLitCI : List Char → List Char → Option (List Char × List Char)
  | [], cs => some ([], cs)
  | _ :: _, [] => none
  | l :: ls, c :: cs =>
    if c.toLower = l.toLower then
      match matchLitCI ls cs with
      | some (m, r) => some (c :: m, r)
      | none => none
    else none

/-- One-or-more repetition of a class disjoint from its follower: maximal munch. -/
def matchPlus (p : Char → Bool) (cs : List Char) : Option (List Char × List Char) :=
  let t := cs.takeWhile p
  if t = [] then none else some (t, cs.dropWhile p)

/-- Zero-or-more repetition of a class disjoint from its follower: maximal munch. -/
def matchStar (p : Char → Bool) (cs : List Char) : List Char × List Char :=
  (cs.takeWhile p, cs.dropWhile p)

/-- An ordered alternation of literals, first alternative wins. -/
def matchAlt (alts : List (List Char)) (cs : List Char) : Option (List Char × List Char) :=
  match alts with
  | [] => none
  | a :: rest =>
    match matchLitCI a cs with
    | some mr => some mr
    | none => matchAlt rest cs

/-- `\d{1,2} sep \d{1,2} sep \d{yLo,yHi}` (sep the separator class) at the
current position,
returning (matched text, rest). -/
def matchDMY (yLo yHi : Nat) (cs : List Char) : Option (List Char × List Char) :=
  tryChoices (fun d1r =>
    match matchSep d1r.2 with
    | none => none
    | some (s1, r2) =>
      tryChoices (fun d2r =>
        match matchSep d2r.2 with
        | none => none
        | some (s2, r4) =>
          match matchYear yLo yHi r4 with
          | none => none
          | some (y, r5) => some (d1r.1 ++ s1 :: (d2r.1 ++ s2 :: y), r5))
        (digitTakeChoices 1 2 r2))
    (digitTakeChoices 1 2 cs)

/-- `LABEL[:\s]+(...)` with a day-month-year date group, at the current
position, returning group 1. -/
def patLabeled (label : List Char) (yLo yHi : Nat) (cs : List Char) :
    Option (List Char) :=
  match matchLitCI label cs with
  | none => none
  | some (_, r1) =>
    match matchPlus colonSpace r1 with
    | none => none
    | some (_, r2) => (matchDMY yLo yHi r2).map (fun gr => gr.1)

/-- The bare date pattern `\d{1,2} sep \d{1,2} sep \d{4}` at the current
position, group 1. -/
def patBareDate (cs : List Char) : Option (List Char) :=
  (matchDMY 4 4 cs).map (fun gr => gr.1)

/-- The month alternatives `Jan|Feb|Mar|Apr|May|Jun|Jul|Aug|Sep|Oct|Nov|Dec`. -/
def monthLits : List (List Char) :=
  [toCL "Jan", toCL "Feb", toCL "Mar", toCL "Apr", toCL "May", toCL "Jun",
   toCL "Jul", toCL "Aug", toCL "Sep", toCL "Oct", toCL "Nov", toCL "Dec"]

/-- `(\d{1,2})\s+(Jan|...|Dec)[a-z]*\s+(\d{4})` at the current position,
returning group 0 (the whole match), as the source does for the pattern with
three groups. -/
def patMonthDate (cs : List Char) : Option (List Char) :=
  tryChoices (fun d1r =>
    match matchPlus pySpace d1r.2 with
    | none => none
    | some (sp1, r2) =>
      match matchAlt monthLits r2 with
      | none => none
      | some (mon, r3) =>
        let tr := matchStar Char.isAlpha r3
        match matchPlus pySpace tr.2 with
        | none => none
        | some (sp2, r5) =>
          match matchYear 4 4 r5 with
          | none => none
          | some (y, _) => some (d1r.1 ++ sp1 ++ mon ++ tr.1 ++ sp2 ++ y))
    (digitTakeChoices 1 2 cs)

/-- `re.search`: try each start position from the left, first match wins. -/
def searchPos (m : List Char → Option (List Char)) : List Char → Option (List Char)
  | [] => m []
  | c :: cs =>
    match m (c :: cs) with
    | some r => some r
    | none => searchPos m cs

/-- The `for pattern in patterns` cascade of `_extract_date`: the first
pattern that matches anywhere in the text yields its group. -/
def firstPattern (pats : List (List Char → Option (List Char)))
    (text : List Char) : Option (List Char) :=
  match pats with
  | [] => none
  | p :: rest =>
    match searchPos p text with
    | some g => some g
    | none => firstPattern rest text

namespace Bot

/-- Acronym list of `JobScraper._extract_org`, src/bot.py lines 322-324
(the duplicated `NVS`/`KVS` entries of the source are kept). -/
def orgs : List (List Char) :=
  [toCL "SSC", toCL "UPSC", toCL "RRB", toCL "RRC", toCL "IBPS", toCL "NVS",
   toCL "KVS", toCL "ESIC", toCL "SAIL", toCL "BHEL", toCL "NTPC", toCL "ONGC",
   toCL "BECIL", toCL "UPPSC", toCL "BPSC", toCL "MPPSC", toCL "TNPSC",
   toCL "RPSC", toCL "MPSC", toCL "GPSC", toCL "CGPSC", toCL "OPSC",
   toCL "APPSC", toCL "TSPSC", toCL "KPSC", toCL "WBPSC", toCL "HPSC",
   toCL "PPSC", toCL "HPPSC", toCL "UKPSC", toCL "JPSC", toCL "CTET",
   toCL "AIIMS", toCL "NVS", toCL "KVS", toCL "CRPF", toCL "CISF",
   toCL "ITBP", toCL "SSB"]

/-- `JobScraper._extract_org`, src/bot.py lines 321-328: first acronym that is a
substring of `text.upper()` wins, else the generic default. -/
def extract_org (text : List Char) : List Char :=
  match orgs.find? (fun org => containsSub (pyUpper text) org) with
  | some org => org
  | none => toCL "Government of India"

/-- Ordered (tier, keyword-set) list of `JobScraper._extract_qualification`,
src/bot.py lines 348-350: four pairs. -/
def quals : List (List Char × List (List Char)) :=
  [(toCL "10th Pass", [toCL "10TH", toCL "MATRIC"]),
   (toCL "12th Pass", [toCL "12TH", toCL "INTERMEDIATE"]),
   (toCL "Graduate", [toCL "GRADUATE", toCL "DEGREE", toCL "B.A", toCL "B.SC", toCL "B.COM"]),
   (toCL "Post Graduate", [toCL "PG", toCL "POST GRADUATE", toCL "M.A", toCL "M.SC", toCL "MBA"])]

/-- `JobScraper._extract_qualification`, src/bot.py lines 344-355: empty text
gives the default; otherwise the first pair with a keyword occurring in
`text.upper()` yields its tier, else the default. -/
def extract_qualification (text : List Char) : List Char :=
  if text = [] then toCL "As per notification"
  else
    match quals.find? (fun q => q.2.any (fun kw => containsSub (pyUpper text) kw)) with
    | some q => q.1
    | none => toCL "As per notification"

/-- A parsed RSS entry as consumed by `_parse_entry`: `entry.get(key, '')`
yields the stored field when present and the default otherwise. -/
structure Entry where
  title : Option (List Char)
  summary : Option (List Char)
  link : Option (List Char)
  published : Option (List Char)
deriving DecidableEq

/-- A job dict as built by `_parse_entry` and `_parse_html` (src/bot.py
lines 280-290 and 309-319). -/
structure Job where
  source : List Char
  title : List Char
  organization : List Char
  qualification : List Char
  last_date : List Char
  apply_link : List Char
  notification_link : List Char
  post_date : List Char
  location : List Char
deriving DecidableEq

/-- The pattern list of `JobScraper._extract_date`, src/bot.py lines 333-337,
in source order. -/
def datePats : List (List Char → Option (List Char)) :=
  [patLabeled (toCL "Last Date") 2 4, patBareDate, patMonthDate]

/-- `JobScraper._extract_date`, src/bot.py lines 330-342: empty text gives the
sentinel; otherwise the first pattern matching anywhere yields its group, else
the sentinel. -/
def extract_date (text : List Char) : List Char :=
  if text = [] then toCL "Check notification"
  else
    match firstPattern datePats text with
    | some g => g
    | none => toCL "Check notification"

/-- `JobScraper._parse_entry`, src/bot.py lines 301-319.  `now` models
`str(datetime.now())`.  A missing or short (fewer than 10 characters after
stripping) title rejects the entry. -/
def parse_entry (e : Entry) (source now : List Char) : Option Job :=
  let title := pyStrip (e.title.getD [])
  let summary := pyStrip (e.summary.getD [])
  let link := pyStrip (e.link.getD [])
  if title = [] || title.length < 10 then none
  else some {
    source := source,
    title := title,
    organization := extract_org title,
    qualification := extract_qualification summary,
    last_date := pyOr (extract_date summary) (extract_date title),
    apply_link := link,
    notification_link := link,
    post_date := e.published.getD now,
    location := toCL "All India" }

/-- The CSS selector cascade of `_parse_html`, src/bot.py lines 270-273. -/
def selectors : List (List Char) :=
  [toCL "table tr", toCL ".job-listing", toCL ".vacancy", toCL ".notification",
   toCL "article", toCL ".news-item", toCL ".list-group-item"]

/-- The keyword filter of `_parse_html`, src/bot.py line 279. -/
def htmlKeywords : List (List Char) :=
  [toCL "recruitment", toCL "vacancy", toCL "post", toCL "job", toCL "notification"]

/-- Python `str.lower` (ASCII). -/
def pyLower (t : List Char) : List Char := t.map Char.toLower

/-- The item filter of src/bot.py line 279: text longer than 20 characters
containing at least one keyword, case-insensitively. -/
def validItem (text : List Char) : Bool :=
  decide (text.length > 20) &&
    htmlKeywords.any (fun kw => containsSub (pyLower text) kw)

/-- The title truncation of src/bot.py line 282. -/
def htmlTitle (text : List Char) : List Char :=
  if text.length > 100 then text.take 100 ++ toCL "..." else text

/-- The job dict built from one HTML item, src/bot.py lines 280-290. -/
def htmlJob (source url now text : List Char) : Job :=
  { source := source ++ toCL "_html",
    title := htmlTitle text,
    organization := extract_org text,
    qualification := extract_qualification text,
    last_date := extract_date text,
    apply_link := url,
    notification_link := url,
    post_date := now,
    location := toCL "All India" }

/-- The selector loop of `_parse_html`, src/bot.py lines 275-294: per
selector only the first three items are examined (`[:3]`), the first valid
one is appended and the inner loop breaks; the outer loop breaks as soon as
`jobs` is non-empty, i.e. at the first selector contributing an item. -/
def selectorScan (select : List Char → List (List Char))
    (source url now : List Char) : List (List Char) → List Job
  | [] => []
  | sel :: rest =>
    match ((select sel).take 3).find? validItem with
    | some text => [htmlJob source url now text]
    | none => selectorScan select source url now rest

/-- `JobScraper._parse_html`, src/bot.py lines 261-299.  `select` models
`soup.select(selector)` followed by `get_text(strip=True)` on each element. -/
def parse_html (select : List Char → List (List Char))
    (source url now : List Char) : List Job :=
  selectorScan select source url now selectors

/-- The outcome of `self.session.get(...)` together with reading the body:
the request either raises (connection error, timeout) or yields a status
code and a body. -/
inductive HttpResult
  | raised (msg : List Char)
  | response (status : Nat) (body : List Char)
deriving DecidableEq

/-- `fetch_rss` inside its `try`, src/bot.py lines 222-238: an HTTP exception
propagates; a non-200 response returns `[]`; otherwise the first three feed
entries (`feed.entries[:3]`) are parsed, keeping the non-`None` results.
`parseFeed` models `feedparser.parse`, which is total: on an unparsable body
it yields a feed object whose entry list is empty. -/
def fetch_rssBody (parseFeed : List Char → List Entry) (now source : List Char)
    (r : HttpResult) : Except (List Char) (List Job) :=
  match r with
  | .raised msg => .error msg
  | .response st body =>
    if st != 200 then .ok []
    else .ok (((parseFeed body).take 3).filterMap (fun e => parse_entry e source now))

/-- `JobScraper.fetch_rss`, src/bot.py lines 220-242: the surrounding
`try/except Exception` turns any exception raised in the body into `[]`. -/
def fetch_rss (parseFeed : List Char → List Entry) (now source : List Char)
    (r : HttpResult) : List Job :=
  match fetch_rssBody parseFeed now source r with
  | .ok jobs => jobs
  | .error _ => []

/-- `fetch_html` inside its `try`, src/bot.py lines 247-255.  `selectOf`
models building the soup from the body and running `soup.select`; an
unparsable body is a body whose selectors yield no valid item. -/
def fetch_htmlBody (selectOf : List Char → List Char → List (List Char))
    (now source url : List Char) (r : HttpResult) : Except (List Char) (List Job) :=
  match r with
  | .raised msg => .error msg
  | .response st body =>
    if st != 200 then .ok []
    else .ok (parse_html (selectOf body) source url now)

/-- `JobScraper.fetch_html`, src/bot.py lines 244-259: the surrounding
`try/except Exception` turns any exception raised in the body into `[]`. -/
def fetch_html (selectOf : List Char → List Char → List (List Char))
    (now source url : List Char) (r : HttpResult) : List Job :=
  match fetch_htmlBody selectOf now source url r with
  | .ok jobs => jobs
  | .error _ => []

/-- The RSS source map of src/bot.py lines 150-195 (insertion order). -/
def rss_sources : List (List Char × List Char) :=
  [(toCL "employment_news", toCL "https://employmentnews.gov.in/rss-feed"),
   (toCL "ssc", toCL "https://ssc.nic.in/rss-feed"),
   (toCL "upsc", toCL "https://upsc.gov.in/rss-feed"),
   (toCL "tnpsc", toCL "https://tnpsc.gov.in/rss-feed"),
   (toCL "uppsc", toCL "https://uppsc.up.nic.in/rss"),
   (toCL "ibps", toCL "https://ibps.in/rss-feed"),
   (toCL "bpsc", toCL "https://bpsc.bih.nic.in/rss"),
   (toCL "mppsc", toCL "https://mppsc.nic.in/rss"),
   (toCL "rpsc", toCL "https://rpsc.rajasthan.gov.in/rss"),
   (toCL "mpsc", toCL "https://mpsc.gov.in/rss"),
   (toCL "gpsc", toCL "https://gpsc.gujarat.gov.in/rss"),
   (toCL "cgpsc", toCL "https://cgpsc.gov.in/rss"),
   (toCL "opsc", toCL "https://opsc.gov.in/rss"),
   (toCL "appsc", toCL "https://appsc.gov.in/rss"),
   (toCL "tspsc", toCL "https://tspsc.gov.in/rss"),
   (toCL "kpsc", toCL "https://kpsc.kar.nic.in/rss"),
   (toCL "wbpsc", toCL "https://wbpsc.gov.in/rss"),
   (toCL "hpsc", toCL "https://hpsc.gov.in/rss"),
   (toCL "ppsc", toCL "https://ppsc.gov.in/rss"),
   (toCL "hppsc", toCL "https://hppsc.hp.gov.in/rss"),
   (toCL "ukpsc", toCL "https://ukpsc.gov.in/rss"),
   (toCL "jpsc", toCL "https://jpsc.gov.in/rss"),
   (toCL "nvs", toCL "https://navodaya.gov.in/rss"),
   (toCL "kvs", toCL "https://kvsangathan.nic.in/rss"),
   (toCL "esic", toCL "https://esic.nic.in/rss"),
   (toCL "sail", toCL "https://sail.co.in/rss"),
   (toCL "bhel", toCL "https://bhel.com/rss"),
   (toCL "ntpc", toCL "https://ntpc.co.in/rss"),
   (toCL "ctet", toCL "https://ctet.nic.in/rss"),
   (toCL "nta", toCL "https://nta.ac.in/rss"),
   (toCL "aiims", toCL "https://aiimsexams.ac.in/rss"),
   (toCL "rrb", toCL "https://rrbcdg.gov.in/rss"),
   (toCL "rrc", toCL "https://rrcb.gov.in/rss"),
   (toCL "indian_army", toCL "https://joinindianarmy.nic.in/rss"),
   (toCL "indian_navy", toCL "https://joinindiannavy.gov.in/rss"),
   (toCL "air_force", toCL "https://careerindianairforce.cdac.in/rss"),
   (toCL "coast_guard", toCL "https://joinindiancoastguard.gov.in/rss"),
   (toCL "crpf", toCL "https://crpf.gov.in/rss"),
   (toCL "cisf", toCL "https://cisf.gov.in/rss"),
   (toCL "itbp", toCL "https://itbp.gov.in/rss"),
   (toCL "ssb", toCL "https://ssb.nic.in/rss"),
   (toCL "delhi_police", toCL "https://delhipolice.nic.in/rss"),
   (toCL "becil", toCL "https://becil.com/rss"),
   (toCL "ongc", toCL "https://ongcindia.com/rss")]

/-- The HTML fallback source map of src/bot.py lines 198-202. -/
def html_sources : List (List Char × List Char) :=
  [(toCL "employment_news_html", toCL "https://employmentnews.gov.in/latest-jobs"),
   (toCL "ssc_html", toCL "https://ssc.nic.in/portal/latest-news"),
   (toCL "upsc_html", toCL "https://upsc.gov.in/examinations/active-examinations")]

/-- `JobScraper.fetch_all_jobs`, src/bot.py lines 357-384: every RSS source is
fetched and its jobs accumulated; only when fewer than five jobs were found in
total are the HTML fallback sources fetched.  `fetchR` and `fetchH` give the
per-source outcomes; the returned flag records whether the HTML branch ran. -/
def fetch_all_jobs (fetchR fetchH : List Char × List Char → List Job) :
    List Job × Bool :=
  let allRss := rss_sources.foldl (fun acc s => acc ++ fetchR s) []
  if allRss.length < 5 then
    (html_sources.foldl (fun acc s => acc ++ fetchH s) allRss, true)
  else (allRss, false)

/-- A row of the `jobs` table, src/bot.py lines 38-54: `id` is the
AUTOINCREMENT key, `hash` the UNIQUE fingerprint column, `posted` the
delivered flag. -/
structure JobRow where
  id : Nat
  source : List Char
  title : List Char
  organization : List Char
  qualification : List Char
  last_date : List Char
  apply_link : List Char
  notification_link : List Char
  post_date : List Char
  location : List Char
  hash : List Char
  posted : Bool
deriving DecidableEq

/-- The `jobs` table.  `rows` is kept newest-first, so prepending on insert
realises `ORDER BY created_at DESC`; `nextId` is the AUTOINCREMENT counter. -/
structure DB where
  rows : List JobRow
  nextId : Nat
deriving DecidableEq

/-- The fingerprint of `Database.add_job`, src/bot.py lines 76-77: the md5
hex digest of the concatenation `f"{title}{organization}"`.  md5 is one fixed
deterministic function, so the model identifies the digest with the digested
string: equal (title, organization) pairs give equal fingerprints, and the
dedup behaviour of the UNIQUE column is preserved. -/
def fingerprint (title organization : List Char) : List Char :=
  title ++ organization

/-- `Database.add_job`, src/bot.py lines 71-102: `INSERT OR IGNORE` on the
UNIQUE `hash` column inserts only when no stored row carries the fingerprint,
and `c.rowcount > 0` reports whether a row was inserted. -/
def add_job (j : Job) (db : DB) : Bool × DB :=
  let h := fingerprint j.title j.organization
  if db.rows.any (fun row => row.hash = h) then (false, db)
  else
    (true,
     { rows := { id := db.nextId, source := j.source, title := j.title,
                 organization := j.organization,
                 qualification := j.qualification, last_date := j.last_date,
                 apply_link := j.apply_link,
                 notification_link := j.notification_link,
                 post_date := j.post_date, location := j.location, hash := h,
                 posted := false } :: db.rows,
       nextId := db.nextId + 1 })

/-- `Database.get_unposted_jobs`, src/bot.py lines 104-111: undelivered rows,
newest first, bounded by `limit`. -/
def get_unposted_jobs (limit : Nat) (db : DB) : List JobRow :=
  (db.rows.filter (fun row => !row.posted)).take limit

/-- `Database.mark_posted`, src/bot.py lines 113-118: set `posted` on the row
with the given id. -/
def mark_posted (jobId : Nat) (db : DB) : DB :=
  { db with
    rows := db.rows.map
      (fun row => if row.id = jobId then { row with posted := true } else row) }

/-- One call of `context.bot.send_message`, which may raise; `sendOk` gives
the transport's outcome per (chat, job id). -/
def sendMessage (sendOk : Int → Nat → Bool) (chat : Int) (row : JobRow) :
    Except (List Char) Unit :=
  if sendOk chat row.id then .ok () else .error (toCL "send failed")

/-- The body of the inner broadcast loop with its `try/except`, src/bot.py
lines 623-634: a raised send is caught and logged, and the loops continue;
either way the attempt happened.  The record is (chat, job id, succeeded). -/
def attemptSend (sendOk : Int → Nat → Bool) (chat : Int) (row : JobRow) :
    Int × Nat × Bool :=
  (chat, row.id,
   match sendMessage sendOk chat row with
   | .ok _ => true
   | .error _ => false)

/-- The dispatch phase of `auto_fetch_and_broadcast`, src/bot.py lines
615-638, run when `new_count > 0`: fetch the batch of at most three
undelivered postings, attempt every (channel, posting) send with failures
caught, then mark every posting of the batch as posted.  Returns the attempt
log, the list of `mark_posted` calls and the final table. -/
def broadcast (channels : List Int) (db : DB) (sendOk : Int → Nat → Bool) :
    List (Int × Nat × Bool) × List Nat × DB :=
  let unposted := get_unposted_jobs 3 db
  let attempts :=
    channels.foldl (fun acc c => acc ++ unposted.map (attemptSend sendOk c)) []
  let marks := unposted.map (fun row => row.id)
  (attempts, marks, marks.foldl (fun d i => mark_posted i d) db)

/-- The chat types distinguished by `update_command`, src/bot.py line 519. -/
inductive ChatType
  | privateChat | group | supergroup | channel
deriving DecidableEq

/-- The membership statuses relevant to `update_command`, src/bot.py line 522. -/
inductive MemberStatus
  | administrator | creator | member | left | banned
deriving DecidableEq

/-- The inputs read by the guard of `update_command`: whether the caller is
the configured admin (line 514), the chat type (line 519), and the result of
`get_chat_member`, where `none` models the call raising (caught, line 525). -/
structure UpdateCtx where
  userIsAdmin : Bool
  chatType : ChatType
  memberStatus : Option MemberStatus
deriving DecidableEq

/-- The guard of `update_command`, src/bot.py lines 511-530: the fetch runs
for the configured admin, and otherwise only in a group, supergroup or
channel whose caller is an administrator or creator.  No field about an
in-progress cycle exists in the program, and none is consulted here. -/
def update_command_runs (ctx : UpdateCtx) : Bool :=
  if ctx.userIsAdmin then true
  else
    match ctx.chatType with
    | .group | .supergroup | .channel =>
      match ctx.memberStatus with
      | some .administrator => true
      | some .creator => true
      | some _ => false
      | none => false
    | .privateChat => false

/-- The observable scheduling state: how many aggregation-and-dispatch passes
are currently in flight.  src/bot.py holds no such variable (no lock, flag or
queue guards the two entry points), which is exactly why neither transition
below reads it. -/
structure CycleState where
  running : Nat
deriving DecidableEq

/-- The three events that change the number of in-flight passes: the
`run_repeating` timer firing (src/bot.py line 656 schedules
`auto_fetch_and_broadcast` unconditionally), an `/update` command arriving
(lines 509-535), and a pass finishing. -/
inductive Trigger
  | timerTick
  | updateCmd (ctx : UpdateCtx)
  | passEnds
deriving DecidableEq

/-- Whether a trigger starts a new pass in the given state, as read off the
source: the timer always starts one, `/update` starts one whenever its guard
passes, and neither entry point consults the in-flight count. -/
def startsPass (_s : CycleState) : Trigger → Bool
  | .timerTick => true
  | .updateCmd ctx => update_command_runs ctx
  | .passEnds => false

/-- The transition on the in-flight count. -/
def stepCycle (s : CycleState) : Trigger → CycleState
  | .timerTick => { running := s.running + 1 }
  | .updateCmd ctx =>
    if update_command_runs ctx then { running := s.running + 1 } else s
  | .passEnds => { running := s.running - 1 }

/-- Run a sequence of triggers. -/
def runTriggers (s : CycleState) (ts : List Trigger) : CycleState :=
  ts.foldl stepCycle s

end Bot

namespace Scraper

/-- Ordered (org, keyword-list) association of `JobScraper._extract_org`,
src/scraper.py lines 93-106 (Python dicts preserve insertion order). -/
def orgRules : List (List Char × List (List Char)) :=
  [(toCL "SSC", [toCL "SSC", toCL "Staff Selection"]),
   (toCL "UPSC", [toCL "UPSC", toCL "Union Public Service"]),
   (toCL "RRB", [toCL "RRB", toCL "Railway", toCL "RRC"]),
   (toCL "IBPS", [toCL "IBPS", toCL "Banking"]),
   (toCL "NVS", [toCL "NVS", toCL "Navodaya"]),
   (toCL "ESIC", [toCL "ESIC"]),
   (toCL "BECIL", [toCL "BECIL"]),
   (toCL "SAIL", [toCL "SAIL"]),
   (toCL "UPPSC", [toCL "UPPSC"]),
   (toCL "TNPSC", [toCL "TNPSC"]),
   (toCL "BPSC", [toCL "BPSC"]),
   (toCL "MPPSC", [toCL "MPPSC"])]

/-- `JobScraper._extract_org`, src/scraper.py lines 91-113: the first entry
with a keyword whose uppercase form occurs in `title.upper()` wins, else the
generic default. -/
def extract_org (title : List Char) : List Char :=
  match orgRules.find?
      (fun r => r.2.any (fun kw => containsSub (pyUpper title) (pyUpper kw))) with
  | some r => r.1
  | none => toCL "Government of India"

/-- Ordered (tier, keyword-set) list of `JobScraper._extract_qualification`,
src/scraper.py lines 140-147: six pairs. -/
def quals : List (List Char × List (List Char)) :=
  [(toCL "10th Pass", [toCL "10TH", toCL "MATRIC", toCL "SECONDARY", toCL "HIGH SCHOOL"]),
   (toCL "12th Pass", [toCL "12TH", toCL "INTERMEDIATE", toCL "HIGHER SECONDARY", toCL "10+2"]),
   (toCL "Graduate", [toCL "GRADUATE", toCL "DEGREE", toCL "B.A", toCL "B.SC", toCL "B.COM", toCL "B.TECH"]),
   (toCL "Post Graduate", [toCL "POST GRADUATE", toCL "PG", toCL "M.A", toCL "M.SC", toCL "M.COM", toCL "MBA"]),
   (toCL "Diploma", [toCL "DIPLOMA", toCL "POLYTECHNIC"]),
   (toCL "ITI", [toCL "ITI"])]

/-- `JobScraper._extract_qualification`, src/scraper.py lines 133-153: empty
text gives the default; otherwise the first pair with a keyword occurring in
`text.upper()` yields its tier, else the default. -/
def extract_qualification (text : List Char) : List Char :=
  if text = [] then toCL "As per notification"
  else
    match quals.find? (fun q => q.2.any (fun kw => containsSub (pyUpper text) kw)) with
    | some q => q.1
    | none => toCL "As per notification"

/-- The pattern list of `JobScraper._extract_date`, src/scraper.py lines
120-125, in source order. -/
def datePats : List (List Char → Option (List Char)) :=
  [patLabeled (toCL "Last Date") 2 4, patLabeled (toCL "Apply before") 2 4,
   patLabeled (toCL "Closing Date") 2 4, patBareDate]

/-- `JobScraper._extract_date`, src/scraper.py lines 115-131: empty text gives
the sentinel; otherwise the first pattern matching anywhere yields group 1,
else the sentinel. -/
def extract_date (text : List Char) : List Char :=
  if text = [] then toCL "Check notification"
  else
    match firstPattern datePats text with
    | some g => g
    | none => toCL "Check notification"

end Scraper

/-- An explicit ordered-rule evaluator: a sequence of (result, keyword-set)
pairs evaluated in order against the uppercased text, returning the first
match or the default.  Used to compare the source's first-match-wins loops
against the spec's description of the qualification cascade. -/
def evalRules (rules : List (List Char × List (List Char))) (dflt : List Char)
    (text : List Char) : List Char :=
  match rules with
  | [] => dflt
  | (name, kws) :: rest =>
      if kws.any (fun kw => containsSub (pyUpper text) kw) then name
      else evalRules rest dflt text

/-- A matcher whose every reported group is a contiguous non-empty piece of
its input. -/
def MatcherSub (m : List Char → Option (List Char)) : Prop :=
  ∀ cs g, m cs = some g → (∃ pre post, pre ++ (g ++ post) = cs) ∧ g ≠ []

/-- A table in which every row carrying the given id is marked posted. -/
def idPosted (db : Bot.DB) (i : Nat) : Prop :=
  ∀ row ∈ db.rows, row.id = i → row.posted = true

/-- A concrete job record used to witness C1. -/
def witJob1 : Bot.Job :=
  { source := toCL "ssc", title := toCL "SSC CGL 2025 Notification",
    organization := toCL "SSC", qualification := toCL "Graduate",
    last_date := toCL "12-08-2025", apply_link := toCL "https://ssc.nic.in",
    notification_link := toCL "https://ssc.nic.in", post_date := toCL "2025",
    location := toCL "All India" }

/-- A second record sharing (title, organization) with `witJob1` but differing
elsewhere. -/
def witJob1b : Bot.Job :=
  { source := toCL "employment_news", title := toCL "SSC CGL 2025 Notification",
    organization := toCL "SSC", qualification := toCL "As per notification",
    last_date := toCL "Check notification", apply_link := toCL "https://other",
    notification_link := toCL "https://other", post_date := toCL "2026",
    location := toCL "All India" }

/-- Rows used to witness C2. -/
def witRow1 : Bot.JobRow :=
  { id := 1, source := toCL "ssc", title := toCL "SSC CGL 2025 Notification",
    organization := toCL "SSC", qualification := toCL "Graduate",
    last_date := toCL "12-08-2025", apply_link := toCL "https://ssc.nic.in",
    notification_link := toCL "https://ssc.nic.in", post_date := toCL "2025",
    location := toCL "All India", hash := toCL "h1", posted := false }

def witRow2 : Bot.JobRow :=
  { id := 2, source := toCL "upsc", title := toCL "UPSC CSE 2025 Notification",
    organization := toCL "UPSC", qualification := toCL "Graduate",
    last_date := toCL "Check notification", apply_link := toCL "https://upsc.gov.in",
    notification_link := toCL "https://upsc.gov.in", post_date := toCL "2025",
    location := toCL "All India", hash := toCL "h2", posted := false }

/-- The entry used to witness C8. -/
def witEntry8 : Bot.Entry :=
  { title := some (toCL "SSC CGL 2025 Notification"),
    summary := some (toCL "Last Date: 12-08-2025"),
    link := some (toCL "https://ssc.nic.in"), published := none }

/-- The job record `_parse_entry` builds from `witEntry8`. -/
def witJob8 : Bot.Job :=
  { source := toCL "ssc", title := toCL "SSC CGL 2025 Notification",
    organization := toCL "SSC", qualification := toCL "As per notification",
    last_date := toCL "12-08-2025", apply_link := toCL "https://ssc.nic.in",
    notification_link := toCL "https://ssc.nic.in", post_date := toCL "now",
    location := toCL "All India" } 

/-- The entry used to witness C10. -/
def witEntry10 : Bot.Entry :=
  { title := some (toCL "  UPSC CSE 2026 Notification "),
    summary := none, link := none, published := none }

/-- The job record `_parse_entry` builds from `witEntry10`. -/
def witJob10 : Bot.Job :=
  { source := toCL "upsc", title := toCL "UPSC CSE 2026 Notification",
    organization := toCL "UPSC", qualification := toCL "As per notification",
    last_date := toCL "Check notification", apply_link := [],
    notification_link := [], post_date := toCL "now",
    location := toCL "All India" }

/-! ### Properties of the pattern matchers -/

theorem tryChoices_eq_some {α : Type} {f : List Char × List Char → Option α}
    {a : α} {l : List (List Char × List Char)} (h : tryChoices f l = some a) :
    ∃ c, c ∈ l ∧ f c = some a := by
  induction l with
  | nil => simp [tryChoices] at h
  | cons c cs ih =>
    simp only [tryChoices] at h
    cases hf : f c with
    | some r =>
      rw [hf] at h
      exact ⟨c, List.mem_cons_self c cs, hf.trans h⟩
    | none =>
      rw [hf] at h
      obtain ⟨d, hd, hfd⟩ := ih h
      exact ⟨d, List.mem_cons_of_mem c hd, hfd⟩

theorem digitTakeChoices_mem {lo hi : Nat} {cs : List Char}
    {d r : List Char} (h : (d, r) ∈ digitTakeChoices lo hi cs) :
    d ++ r = cs ∧ lo ≤ d.length := by
  simp only [digitTakeChoices, List.mem_filterMap, List.mem_reverse,
    List.mem_range] at h
  obtain ⟨k, hk, hif⟩ := h
  split at hif
  · injection hif with heq
    have hlen : (cs.takeWhile Char.isDigit).length ≤ cs.length :=
      (List.takeWhile_prefix _).length_le
    obtain ⟨hd, hr⟩ := Prod.mk.injEq .. ▸ heq
    subst hd; subst hr
    refine ⟨List.take_append_drop k cs, ?_⟩
    rw [List.length_take]
    omega
  · exact absurd hif (by simp)

theorem matchSep_eq_some {cs : List Char} {c : Char} {r : List Char}
    (h : matchSep cs = some (c, r)) : c :: r = cs := by
  cases cs with
  | nil => simp [matchSep] at h
  | cons d ds =>
    simp only [matchSep] at h
    split at h
    · injection h with heq
      obtain ⟨h1, h2⟩ := Prod.mk.injEq .. ▸ heq
      rw [h1, h2]
    · exact absurd h (by simp)

theorem matchYear_eq_some {lo hi : Nat} {cs y r : List Char}
    (h : matchYear lo hi cs = some (y, r)) : y ++ r = cs ∧ lo ≤ y.length := by
  simp only [matchYear] at h
  split at h
  · rename_i hlo
    injection h with heq
    have hlen : (cs.takeWhile Char.isDigit).length ≤ cs.length :=
      (List.takeWhile_prefix _).length_le
    obtain ⟨h1, h2⟩ := Prod.mk.injEq .. ▸ heq
    subst h1; subst h2
    refine ⟨List.take_append_drop _ cs, ?_⟩
    rw [List.length_take]
    omega
  · exact absurd h (by simp)

theorem matchLitCI_eq_some :
    ∀ {l cs m r : List Char}, matchLitCI l cs = some (m, r) → m ++ r = cs := by
  intro l
  induction l with
  | nil =>
    intro cs m r h
    simp only [matchLitCI] at h
    injection h with heq
    obtain ⟨h1, h2⟩ := Prod.mk.injEq .. ▸ heq
    rw [← h1, ← h2]
    rfl
  | cons x xs ih =>
    intro cs m r h
    cases cs with
    | nil => simp [matchLitCI] at h
    | cons c cs2 =>
      simp only [matchLitCI] at h
      split at h
      · cases hrec : matchLitCI xs cs2 with
        | none => rw [hrec] at h; simp at h
        | some mr =>
          obtain ⟨m1, r1⟩ := mr
          rw [hrec] at h
          injection h with heq
          obtain ⟨h1, h2⟩ := Prod.mk.injEq .. ▸ heq
          subst h1; subst h2
          rw [List.cons_append, ih hrec]
      · exact absurd h (by simp)

theorem matchPlus_eq_some {p : Char → Bool} {cs m r : List Char}
    (h : matchPlus p cs = some (m, r)) : m ++ r = cs ∧ m ≠ [] := by
  simp only [matchPlus] at h
  split at h
  · exact absurd h (by simp)
  · rename_i ht
    injection h with heq
    obtain ⟨h1, h2⟩ := Prod.mk.injEq .. ▸ heq
    subst h1; subst h2
    exact ⟨List.takeWhile_append_dropWhile p cs, ht⟩

theorem matchStar_eq (p : Char → Bool) (cs : List Char) :
    (matchStar p cs).1 ++ (matchStar p cs).2 = cs := by
  simp only [matchStar]
  exact List.takeWhile_append_dropWhile p cs

theorem matchAlt_eq_some {alts : List (List Char)} {cs m r : List Char}
    (h : matchAlt alts cs = some (m, r)) : m ++ r = cs := by
  induction alts with
  | nil => simp [matchAlt] at h
  | cons a rest ih =>
    simp only [matchAlt] at h
    cases ha : matchLitCI a cs with
    | some mr =>
      rw [ha] at h
      have heq : mr = (m, r) := by injection h
      rw [heq] at ha
      exact matchLitCI_eq_some ha
    | none =>
      rw [ha] at h
      exact ih h

theorem matchDMY_eq_some {yLo yHi : Nat} {cs g r : List Char}
    (h : matchDMY yLo yHi cs = some (g, r)) : g ++ r = cs ∧ g ≠ [] := by
  unfold matchDMY at h
  obtain ⟨⟨d1, r1⟩, hmem1, h1⟩ := tryChoices_eq_some h
  obtain ⟨hd1, hlo1⟩ := digitTakeChoices_mem hmem1
  simp only at h1
  split at h1
  · simp at h1
  · rename_i s1 r2 hsep1
    obtain ⟨⟨d2, r3⟩, hmem2, h2⟩ := tryChoices_eq_some h1
    obtain ⟨hd2, hlo2⟩ := digitTakeChoices_mem hmem2
    simp only at h2
    split at h2
    · simp at h2
    · rename_i s2 r4 hsep2
      split at h2
      · simp at h2
      · rename_i y r5 hy
        injection h2 with heq
        obtain ⟨hg, hr⟩ := Prod.mk.injEq .. ▸ heq
        have hs1 : s1 :: r2 = r1 := matchSep_eq_some hsep1
        have hs2 : s2 :: r4 = r3 := matchSep_eq_some hsep2
        obtain ⟨hy1, _⟩ := matchYear_eq_some hy
        subst hg; subst hr
        constructor
        · have hflat : (d1 ++ s1 :: (d2 ++ s2 :: y)) ++ r5 =
              d1 ++ (s1 :: (d2 ++ (s2 :: (y ++ r5)))) := by
            simp [List.append_assoc]
          rw [hflat, hy1, hs2, hd2, hs1, hd1]
        · cases d1 with
          | nil => simp at hlo1
          | cons a b => simp


theorem patLabeled_sub (label : List Char) (yLo yHi : Nat) :
    MatcherSub (patLabeled label yLo yHi) := by
  intro cs g h
  unfold patLabeled at h
  split at h
  · simp at h
  · rename_i lit r1 hlit
    split at h
    · simp at h
    · rename_i gap r2 hplus
      cases hdmy : matchDMY yLo yHi r2 with
      | none => rw [hdmy] at h; simp at h
      | some gr =>
        obtain ⟨g0, r5⟩ := gr
        rw [hdmy] at h
        have heq : g0 = g := by simpa using h
        obtain ⟨hdm, hne⟩ := matchDMY_eq_some hdmy
        have hl : lit ++ r1 = cs := matchLitCI_eq_some hlit
        obtain ⟨hp, _⟩ := matchPlus_eq_some hplus
        subst heq
        refine ⟨⟨lit ++ gap, r5, ?_⟩, hne⟩
        rw [List.append_assoc, hdm, hp, hl]

theorem patBareDate_sub : MatcherSub patBareDate := by
  intro cs g h
  unfold patBareDate at h
  cases hdmy : matchDMY 4 4 cs with
  | none => rw [hdmy] at h; simp at h
  | some gr =>
    obtain ⟨g0, r⟩ := gr
    rw [hdmy] at h
    have heq : g0 = g := by injection h
    obtain ⟨hdm, hne⟩ := matchDMY_eq_some hdmy
    subst heq
    exact ⟨⟨[], r, by simpa using hdm⟩, hne⟩

theorem patMonthDate_sub : MatcherSub patMonthDate := by
  intro cs g h
  unfold patMonthDate at h
  obtain ⟨⟨d1, r1⟩, hmem1, h1⟩ := tryChoices_eq_some h
  obtain ⟨hd1, hlo1⟩ := digitTakeChoices_mem hmem1
  simp only at h1
  split at h1
  · simp at h1
  · rename_i sp1 r2 hplus1
    split at h1
    · simp at h1
    · rename_i mon r3 halt
      split at h1
      · simp at h1
      · rename_i sp2 r5 hplus2
        split at h1
        · simp at h1
        · rename_i y r6 hy
          have heq : d1 ++ sp1 ++ mon ++ (matchStar Char.isAlpha r3).1 ++ sp2 ++ y = g := by
            injection h1
          obtain ⟨hp1, _⟩ := matchPlus_eq_some hplus1
          have hm : mon ++ r3 = r2 := matchAlt_eq_some halt
          have hts : (matchStar Char.isAlpha r3).1 ++ (matchStar Char.isAlpha r3).2 = r3 :=
            matchStar_eq Char.isAlpha r3
          obtain ⟨hp2, _⟩ := matchPlus_eq_some hplus2
          obtain ⟨hy1, _⟩ := matchYear_eq_some hy
          subst heq
          constructor
          · refine ⟨[], r6, ?_⟩
            have hflat :
                (d1 ++ sp1 ++ mon ++ (matchStar Char.isAlpha r3).1 ++ sp2 ++ y) ++ r6 =
                  d1 ++ (sp1 ++ (mon ++ ((matchStar Char.isAlpha r3).1 ++
                    (sp2 ++ (y ++ r6))))) := by
              simp [List.append_assoc]
            rw [List.nil_append, hflat, hy1, hp2]
            rw [hts, hm, hp1, hd1]
          · cases d1 with
            | nil => simp at hlo1
            | cons a b => simp

theorem searchPos_sub {m : List Char → Option (List Char)} (hm : MatcherSub m) :
    ∀ t g, searchPos m t = some g →
      (∃ pre post, pre ++ (g ++ post) = t) ∧ g ≠ [] := by
  intro t
  induction t with
  | nil =>
    intro g h
    simp only [searchPos] at h
    exact hm [] g h
  | cons c cs ih =>
    intro g h
    simp only [searchPos] at h
    cases hmc : m (c :: cs) with
    | some r =>
      rw [hmc] at h
      have heq : r = g := by injection h
      subst heq
      exact hm (c :: cs) r hmc
    | none =>
      rw [hmc] at h
      obtain ⟨⟨pre, post, hsplit⟩, hne⟩ := ih g h
      exact ⟨⟨c :: pre, post, by rw [List.cons_append, hsplit]⟩, hne⟩

theorem firstPattern_sub {pats : List (List Char → Option (List Char))}
    (hp : ∀ p ∈ pats, MatcherSub p) :
    ∀ t g, firstPattern pats t = some g →
      (∃ pre post, pre ++ (g ++ post) = t) ∧ g ≠ [] := by
  induction pats with
  | nil => intro t g h; simp [firstPattern] at h
  | cons p rest ih =>
    intro t g h
    simp only [firstPattern] at h
    cases hs : searchPos p t with
    | some r =>
      rw [hs] at h
      have heq : r = g := by injection h
      subst heq
      exact searchPos_sub (hp p (by simp)) t r hs
    | none =>
      rw [hs] at h
      exact ih (fun q hq => hp q (List.mem_cons_of_mem p hq)) t g h

theorem bot_datePats_sub : ∀ p ∈ Bot.datePats, MatcherSub p := by
  intro p hp
  simp only [Bot.datePats, List.mem_cons, List.not_mem_nil, or_false] at hp
  rcases hp with h | h | h
  · subst h; exact patLabeled_sub _ 2 4
  · subst h; exact patBareDate_sub
  · subst h; exact patMonthDate_sub

theorem scraper_datePats_sub : ∀ p ∈ Scraper.datePats, MatcherSub p := by
  intro p hp
  simp only [Scraper.datePats, List.mem_cons, List.not_mem_nil, or_false] at hp
  rcases hp with h | h | h | h
  · subst h; exact patLabeled_sub _ 2 4
  · subst h; exact patLabeled_sub _ 2 4
  · subst h; exact patLabeled_sub _ 2 4
  · subst h; exact patBareDate_sub

theorem bot_extract_date_spec (t : List Char) :
    Bot.extract_date t = toCL "Check notification" ∨
      ((∃ pre post, pre ++ (Bot.extract_date t ++ post) = t) ∧
        Bot.extract_date t ≠ []) := by
  by_cases ht : t = []
  · left
    unfold Bot.extract_date
    rw [if_pos ht]
  · cases hf : firstPattern Bot.datePats t with
    | none =>
      left
      unfold Bot.extract_date
      rw [if_neg ht, hf]
    | some g =>
      right
      have hval : Bot.extract_date t = g := by
        unfold Bot.extract_date
        rw [if_neg ht, hf]
      rw [hval]
      exact firstPattern_sub bot_datePats_sub t g hf

theorem scraper_extract_date_spec (t : List Char) :
    Scraper.extract_date t = toCL "Check notification" ∨
      ((∃ pre post, pre ++ (Scraper.extract_date t ++ post) = t) ∧
        Scraper.extract_date t ≠ []) := by
  by_cases ht : t = []
  · left
    unfold Scraper.extract_date
    rw [if_pos ht]
  · cases hf : firstPattern Scraper.datePats t with
    | none =>
      left
      unfold Scraper.extract_date
      rw [if_neg ht, hf]
    | some g =>
      right
      have hval : Scraper.extract_date t = g := by
        unfold Scraper.extract_date
        rw [if_neg ht, hf]
      rw [hval]
      exact firstPattern_sub scraper_datePats_sub t g hf

theorem bot_extract_date_ne_nil (t : List Char) : Bot.extract_date t ≠ [] := by
  rcases bot_extract_date_spec t with h | ⟨_, h⟩
  · rw [h]; decide
  · exact h

theorem scraper_extract_date_ne_nil (t : List Char) :
    Scraper.extract_date t ≠ [] := by
  rcases scraper_extract_date_spec t with h | ⟨_, h⟩
  · rw [h]; decide
  · exact h

/-! ### Extraction output sets and the ordered-rule evaluator -/

theorem bot_extract_org_mem (t : List Char) :
    Bot.extract_org t ∈ Bot.orgs ∨
      Bot.extract_org t = toCL "Government of India" := by
  cases hf : Bot.orgs.find? (fun org => containsSub (pyUpper t) org) with
  | none =>
    right
    unfold Bot.extract_org
    rw [hf]
  | some o =>
    left
    have hv : Bot.extract_org t = o := by
      unfold Bot.extract_org
      rw [hf]
    rw [hv]
    exact List.mem_of_find?_eq_some hf

theorem scraper_extract_org_mem (t : List Char) :
    Scraper.extract_org t ∈ Scraper.orgRules.map Prod.fst ∨
      Scraper.extract_org t = toCL "Government of India" := by
  cases hf : Scraper.orgRules.find?
      (fun r => r.2.any (fun kw => containsSub (pyUpper t) (pyUpper kw))) with
  | none =>
    right
    unfold Scraper.extract_org
    rw [hf]
  | some o =>
    left
    have hv : Scraper.extract_org t = o.1 := by
      unfold Scraper.extract_org
      rw [hf]
    rw [hv]
    exact List.mem_map_of_mem Prod.fst (List.mem_of_find?_eq_some hf)

theorem bot_extract_qualification_mem (t : List Char) :
    Bot.extract_qualification t ∈ Bot.quals.map Prod.fst ∨
      Bot.extract_qualification t = toCL "As per notification" := by
  by_cases ht : t = []
  · right
    unfold Bot.extract_qualification
    rw [if_pos ht]
  · cases hf : Bot.quals.find?
        (fun q => q.2.any (fun kw => containsSub (pyUpper t) kw)) with
    | none =>
      right
      unfold Bot.extract_qualification
      rw [if_neg ht, hf]
    | some q =>
      left
      have hv : Bot.extract_qualification t = q.1 := by
        unfold Bot.extract_qualification
        rw [if_neg ht, hf]
      rw [hv]
      exact List.mem_map_of_mem Prod.fst (List.mem_of_find?_eq_some hf)

theorem scraper_extract_qualification_mem (t : List Char) :
    Scraper.extract_qualification t ∈ Scraper.quals.map Prod.fst ∨
      Scraper.extract_qualification t = toCL "As per notification" := by
  by_cases ht : t = []
  · right
    unfold Scraper.extract_qualification
    rw [if_pos ht]
  · cases hf : Scraper.quals.find?
        (fun q => q.2.any (fun kw => containsSub (pyUpper t) kw)) with
    | none =>
      right
      unfold Scraper.extract_qualification
      rw [if_neg ht, hf]
    | some q =>
      left
      have hv : Scraper.extract_qualification t = q.1 := by
        unfold Scraper.extract_qualification
        rw [if_neg ht, hf]
      rw [hv]
      exact List.mem_map_of_mem Prod.fst (List.mem_of_find?_eq_some hf)

theorem find?_eq_evalRules (rules : List (List Char × List (List Char)))
    (dflt t : List Char) :
    (match rules.find? (fun q => q.2.any (fun kw => containsSub (pyUpper t) kw)) with
     | some q => q.1
     | none => dflt) = evalRules rules dflt t := by
  induction rules with
  | nil => rfl
  | cons q rest ih =>
    obtain ⟨name, kws⟩ := q
    simp only [evalRules]
    by_cases hq : (kws.any (fun kw => containsSub (pyUpper t) kw)) = true
    · rw [if_pos hq, List.find?_cons_of_pos _ (by simpa using hq)]
    · rw [if_neg hq, List.find?_cons_of_neg _ (by simpa using hq)]
      exact ih

theorem bot_extract_qualification_eval (t : List Char) :
    Bot.extract_qualification t =
      evalRules Bot.quals (toCL "As per notification") t := by
  by_cases ht : t = []
  · subst ht; decide
  · unfold Bot.extract_qualification
    rw [if_neg ht]
    exact find?_eq_evalRules Bot.quals _ t

theorem scraper_extract_qualification_eval (t : List Char) :
    Scraper.extract_qualification t =
      evalRules Scraper.quals (toCL "As per notification") t := by
  by_cases ht : t = []
  · subst ht; decide
  · unfold Scraper.extract_qualification
    rw [if_neg ht]
    exact find?_eq_evalRules Scraper.quals _ t

theorem scraper_qual_default_iff (t : List Char) :
    Scraper.extract_qualification t = toCL "As per notification" ↔
      ∀ q ∈ Scraper.quals,
        ¬(q.2.any (fun kw => containsSub (pyUpper t) kw) = true) := by
  by_cases ht : t = []
  · subst ht
    constructor
    · intro _
      decide
    · intro _
      rfl
  · cases hf : Scraper.quals.find?
        (fun q => q.2.any (fun kw => containsSub (pyUpper t) kw)) with
    | none =>
      constructor
      · intro _
        exact (List.find?_eq_none).mp hf
      · intro _
        unfold Scraper.extract_qualification
        rw [if_neg ht, hf]
    | some q =>
      have hv : Scraper.extract_qualification t = q.1 := by
        unfold Scraper.extract_qualification
        rw [if_neg ht, hf]
      have hqmem := List.mem_of_find?_eq_some hf
      have hqp := List.find?_some hf
      constructor
      · intro hdef
        have hne : ∀ p ∈ Scraper.quals, p.1 ≠ toCL "As per notification" := by decide
        exact absurd (hv ▸ hdef) (hne q hqmem)
      · intro hall
        exact absurd hqp (hall q hqmem)

/-! ### Accumulation and dispatch lemmas -/

theorem foldl_append_eq_flatMap {α β : Type} (f : α → List β) :
    ∀ (l : List α) (acc : List β),
      l.foldl (fun a s => a ++ f s) acc = acc ++ l.flatMap f := by
  intro l
  induction l with
  | nil => intro acc; simp
  | cons x xs ih =>
    intro acc
    simp only [List.foldl_cons, List.flatMap_cons]
    rw [ih, List.append_assoc]

theorem selectorScan_length_le_one (select : List Char → List (List Char))
    (source url now : List Char) :
    ∀ sels, (Bot.selectorScan select source url now sels).length ≤ 1 := by
  intro sels
  induction sels with
  | nil => simp [Bot.selectorScan]
  | cons sel rest ih =>
    simp only [Bot.selectorScan]
    cases hfind : ((select sel).take 3).find? Bot.validItem with
    | some text => simp
    | none => exact ih

theorem selectorScan_nil_of_empty (select : List Char → List (List Char))
    (source url now : List Char) (hsel : ∀ sel, select sel = []) :
    ∀ sels, Bot.selectorScan select source url now sels = [] := by
  intro sels
  induction sels with
  | nil => rfl
  | cons sel rest ih =>
    simp only [Bot.selectorScan, hsel sel]
    exact ih


theorem idPosted_mark_self (db : Bot.DB) (i : Nat) :
    idPosted (Bot.mark_posted i db) i := by
  intro row hrow hid
  simp only [Bot.mark_posted, List.mem_map] at hrow
  obtain ⟨r0, _, hr0⟩ := hrow
  by_cases hcase : r0.id = i
  · rw [if_pos hcase] at hr0
    rw [← hr0]
  · rw [if_neg hcase] at hr0
    rw [← hr0] at hid
    exact absurd hid hcase

theorem idPosted_mark_mono (db : Bot.DB) (i j : Nat) (h : idPosted db i) :
    idPosted (Bot.mark_posted j db) i := by
  intro row hrow hid
  simp only [Bot.mark_posted, List.mem_map] at hrow
  obtain ⟨r0, hr0mem, hr0⟩ := hrow
  by_cases hcase : r0.id = j
  · rw [if_pos hcase] at hr0
    rw [← hr0]
  · rw [if_neg hcase] at hr0
    rw [← hr0] at hid ⊢
    exact h r0 hr0mem hid

theorem idPosted_foldl_mono (ids : List Nat) :
    ∀ (db : Bot.DB) (i : Nat), idPosted db i →
      idPosted (ids.foldl (fun d j => Bot.mark_posted j d) db) i := by
  induction ids with
  | nil => intro db i h; exact h
  | cons j rest ih =>
    intro db i h
    simp only [List.foldl_cons]
    exact ih _ i (idPosted_mark_mono db i j h)

theorem idPosted_foldl_of_mem (ids : List Nat) :
    ∀ (db : Bot.DB) (i : Nat), i ∈ ids →
      idPosted (ids.foldl (fun d j => Bot.mark_posted j d) db) i := by
  induction ids with
  | nil => intro db i h; simp at h
  | cons j rest ih =>
    intro db i h
    simp only [List.foldl_cons]
    rcases List.mem_cons.mp h with heq | hmem
    · subst heq
      exact idPosted_foldl_mono rest _ i (idPosted_mark_self db i)
    · exact ih _ i hmem

/-! ### Claim theorems -/

/-- C1: the fingerprint computed by `Database.add_job` is a deterministic
function of exactly the pair (title, organization); starting from a table
holding no row with that fingerprint, the first `add_job` inserts and
returns true, a second call with a record sharing the pair is a no-op that
returns false, and exactly one stored row carries the fingerprint. -/
theorem claim1_add_job_idempotent (j j2 : Bot.Job) (db : Bot.DB)
    (hsame : j2.title = j.title ∧ j2.organization = j.organization)
    (habs : ∀ row ∈ db.rows,
      row.hash ≠ Bot.fingerprint j.title j.organization) :
    Bot.fingerprint j2.title j2.organization =
      Bot.fingerprint j.title j.organization ∧
    (Bot.add_job j db).1 = true ∧
    (Bot.add_job j2 (Bot.add_job j db).2).1 = false ∧
    (Bot.add_job j2 (Bot.add_job j db).2).2 = (Bot.add_job j db).2 ∧
    ((Bot.add_job j2 (Bot.add_job j db).2).2.rows.filter
        (fun row => row.hash = Bot.fingerprint j.title j.organization)).length
      = 1 := by
  obtain ⟨ht, ho⟩ := hsame
  have hfp : Bot.fingerprint j2.title j2.organization =
      Bot.fingerprint j.title j.organization := by rw [ht, ho]
  have hany : db.rows.any
      (fun row => row.hash = Bot.fingerprint j.title j.organization) = false := by
    rw [List.any_eq_false]
    intro row hrow
    simpa using habs row hrow
  have e1 : Bot.add_job j db = (true,
      { rows := { id := db.nextId, source := j.source, title := j.title,
                  organization := j.organization,
                  qualification := j.qualification, last_date := j.last_date,
                  apply_link := j.apply_link,
                  notification_link := j.notification_link,
                  post_date := j.post_date, location := j.location,
                  hash := Bot.fingerprint j.title j.organization,
                  posted := false } :: db.rows,
        nextId := db.nextId + 1 }) := by
    simp only [Bot.add_job]
    rw [hany]
    rfl
  have e2 : Bot.add_job j2 (Bot.add_job j db).2 = (false, (Bot.add_job j db).2) := by
    rw [e1]
    simp only [Bot.add_job]
    rw [hfp]
    simp
  refine ⟨hfp, by rw [e1], by rw [e2], by rw [e2], ?_⟩
  rw [e2]
  rw [e1]
  simp only [List.filter_cons]
  have hfilter : db.rows.filter
      (fun row => row.hash = Bot.fingerprint j.title j.organization) = [] := by
    rw [List.filter_eq_nil_iff]
    intro row hrow
    simpa using habs row hrow
  simp [hfilter]



/-- Witness for C1 at a concrete pair of records and the empty table. -/
theorem claim1_witness :
    witJob1b.title = witJob1.title ∧
    witJob1b.organization = witJob1.organization ∧
    (Bot.add_job witJob1 ⟨[], 1⟩).1 = true ∧
    (Bot.add_job witJob1b (Bot.add_job witJob1 ⟨[], 1⟩).2).1 = false := by
  have h := claim1_add_job_idempotent witJob1 witJob1b ⟨[], 1⟩
    ⟨by decide, by decide⟩ (by intro row hrow; simp at hrow)
  exact ⟨by decide, by decide, h.2.1, h.2.2.1⟩

/-- C2: after one dispatch pass of `auto_fetch_and_broadcast` the batch has at
most three postings; every posting of the batch is marked delivered and its
`mark_posted` call happens exactly once, whatever the per-destination send
outcomes; and the attempted (destination, posting) sends are exactly all
pairs of the destination set and the batch, independent of any failures. -/
theorem claim2_broadcast_marks_once (channels : List Int) (db : Bot.DB)
    (sendOk : Int → Nat → Bool)
    (hids : (db.rows.map (fun row => row.id)).Nodup) :
    (Bot.get_unposted_jobs 3 db).length ≤ 3 ∧
    (∀ row ∈ Bot.get_unposted_jobs 3 db,
      (Bot.broadcast channels db sendOk).2.1.count row.id = 1 ∧
      idPosted (Bot.broadcast channels db sendOk).2.2 row.id) ∧
    (Bot.broadcast channels db sendOk).1.map (fun a => (a.1, a.2.1)) =
      channels.flatMap
        (fun c => (Bot.get_unposted_jobs 3 db).map (fun row => (c, row.id))) := by
  have hsub : List.Sublist (Bot.get_unposted_jobs 3 db) db.rows := by
    unfold Bot.get_unposted_jobs
    exact (List.take_sublist 3 _).trans (List.filter_sublist db.rows)
  have hnodup : ((Bot.get_unposted_jobs 3 db).map (fun row => row.id)).Nodup :=
    hids.sublist (hsub.map (fun row => row.id))
  refine ⟨List.length_take_le 3 _, ?_, ?_⟩
  · intro row hrow
    constructor
    · have hmem : row.id ∈ (Bot.get_unposted_jobs 3 db).map (fun r => r.id) :=
        List.mem_map_of_mem (fun r => r.id) hrow
      exact List.count_eq_one_of_mem hnodup hmem
    · have hmem : row.id ∈ (Bot.get_unposted_jobs 3 db).map (fun r => r.id) :=
        List.mem_map_of_mem (fun r => r.id) hrow
      exact idPosted_foldl_of_mem _ db row.id hmem
  · show (channels.foldl
        (fun acc c => acc ++ (Bot.get_unposted_jobs 3 db).map
          (Bot.attemptSend sendOk c)) []).map (fun a => (a.1, a.2.1)) = _
    rw [foldl_append_eq_flatMap, List.nil_append, List.map_flatMap]
    apply congrArg
    funext c
    simp [Bot.attemptSend, Function.comp]



/-- Witness for C2: two destinations, a two-row batch, and a transport that
fails every send to destination 7. -/
theorem claim2_witness :
    ((Bot.DB.mk [witRow1, witRow2] 3).rows.map (fun row => row.id)).Nodup ∧
    (∀ row ∈ Bot.get_unposted_jobs 3 (Bot.DB.mk [witRow1, witRow2] 3),
      (Bot.broadcast [5, 7] (Bot.DB.mk [witRow1, witRow2] 3)
        (fun c _ => decide (c = 5))).2.1.count row.id = 1 ∧
      idPosted (Bot.broadcast [5, 7] (Bot.DB.mk [witRow1, witRow2] 3)
        (fun c _ => decide (c = 5))).2.2 row.id) := by
  have h := claim2_broadcast_marks_once [5, 7] (Bot.DB.mk [witRow1, witRow2] 3)
    (fun c _ => decide (c = 5)) (by decide)
  exact ⟨by decide, h.2.1⟩

/-- C3 counterexample: with one pass already in flight, an authorized
`/update` trigger still starts a pass — the guard of `update_command` is
independent of the in-flight count — and the trace timer-then-update reaches
two concurrent passes, so no mutual-exclusion gate suppresses the on-demand
trigger. -/
theorem claim3_counterexample :
    Bot.startsPass ⟨1⟩
      (Bot.Trigger.updateCmd ⟨true, Bot.ChatType.privateChat, none⟩) = true ∧
    Bot.runTriggers ⟨0⟩
      [Bot.Trigger.timerTick,
       Bot.Trigger.updateCmd ⟨true, Bot.ChatType.privateChat, none⟩] = ⟨2⟩ := by
  decide

/-- C3 amended: there is no mutual-exclusion gate.  Whether a trigger starts
an aggregation-and-dispatch pass depends only on its authorization inputs and
never on the in-flight state — the timer always starts one and `/update`
starts one exactly when its admin guard passes — so an on-demand trigger
arriving during a scheduled cycle yields two concurrent passes. -/
theorem claim3_no_gate (s : Bot.CycleState) (ctx : Bot.UpdateCtx) :
    Bot.startsPass s (Bot.Trigger.updateCmd ctx) = Bot.update_command_runs ctx ∧
    Bot.startsPass s Bot.Trigger.timerTick = true ∧
    Bot.runTriggers ⟨0⟩
      [Bot.Trigger.timerTick,
       Bot.Trigger.updateCmd ⟨true, Bot.ChatType.privateChat, none⟩] = ⟨2⟩ :=
  ⟨rfl, rfl, by decide⟩

/-- C4: `fetch_rss` and `fetch_html` return a plain (exception-free) list for
every upstream outcome, and the failure outcomes — a raised request
(connection error or timeout), a non-200 status, and an unparsable body —
all yield the empty list. -/
theorem claim4_fetch_never_raises
    (parseFeed : List Char → List Bot.Entry)
    (selectOf : List Char → List Char → List (List Char))
    (now source url msg body : List Char) (st : Nat) :
    Bot.fetch_rss parseFeed now source (Bot.HttpResult.raised msg) = [] ∧
    Bot.fetch_html selectOf now source url (Bot.HttpResult.raised msg) = [] ∧
    (st ≠ 200 →
      Bot.fetch_rss parseFeed now source (Bot.HttpResult.response st body) = [] ∧
      Bot.fetch_html selectOf now source url (Bot.HttpResult.response st body) = []) ∧
    (parseFeed body = [] →
      Bot.fetch_rss parseFeed now source (Bot.HttpResult.response 200 body) = []) ∧
    ((∀ sel, selectOf body sel = []) →
      Bot.fetch_html selectOf now source url (Bot.HttpResult.response 200 body) = []) := by
  refine ⟨rfl, rfl, ?_, ?_, ?_⟩
  · intro hst
    constructor
    · simp [Bot.fetch_rss, Bot.fetch_rssBody, hst]
    · simp [Bot.fetch_html, Bot.fetch_htmlBody, hst]
  · intro hparse
    simp [Bot.fetch_rss, Bot.fetch_rssBody, hparse]
  · intro hsel
    simp [Bot.fetch_html, Bot.fetch_htmlBody, Bot.parse_html,
      selectorScan_nil_of_empty (selectOf body) source url now hsel]

/-- Witness for C4: a timeout, a 404 response and an unparsable body each
produce the empty list. -/
theorem claim4_witness :
    Bot.fetch_rss (fun _ => []) (toCL "now") (toCL "ssc")
      (Bot.HttpResult.raised (toCL "timeout")) = [] ∧
    Bot.fetch_rss (fun _ => []) (toCL "now") (toCL "ssc")
      (Bot.HttpResult.response 404 (toCL "err")) = [] ∧
    Bot.fetch_html (fun _ _ => []) (toCL "now") (toCL "ssc") (toCL "u")
      (Bot.HttpResult.response 200 (toCL "garbage")) = [] := by
  refine ⟨?_, ?_, ?_⟩
  · exact (claim4_fetch_never_raises (fun _ => []) (fun _ _ => []) (toCL "now")
      (toCL "ssc") (toCL "u") (toCL "timeout") (toCL "err") 404).1
  · exact ((claim4_fetch_never_raises (fun _ => []) (fun _ _ => []) (toCL "now")
      (toCL "ssc") (toCL "u") (toCL "timeout") (toCL "err") 404).2.2.1
      (by decide)).1
  · exact (claim4_fetch_never_raises (fun _ => []) (fun _ _ => []) (toCL "now")
      (toCL "ssc") (toCL "u") (toCL "timeout") (toCL "garbage") 404).2.2.2.2
      (fun sel => rfl)

/-- C5: for every input string each extraction function returns a member of
its defined output set — `_extract_org` a known acronym or the generic
default, `_extract_date` a substring of the input or the sentinel, and
`_extract_qualification` a defined tier name or the default — in both
src/bot.py and src/scraper.py; the functions are total, so they never
raise. -/
theorem claim5_extraction_defaults (t : List Char) :
    (Bot.extract_org t ∈ Bot.orgs ∨
      Bot.extract_org t = toCL "Government of India") ∧
    (Scraper.extract_org t ∈ Scraper.orgRules.map Prod.fst ∨
      Scraper.extract_org t = toCL "Government of India") ∧
    (Bot.extract_date t = toCL "Check notification" ∨
      ∃ pre post, pre ++ (Bot.extract_date t ++ post) = t) ∧
    (Scraper.extract_date t = toCL "Check notification" ∨
      ∃ pre post, pre ++ (Scraper.extract_date t ++ post) = t) ∧
    (Bot.extract_qualification t ∈ Bot.quals.map Prod.fst ∨
      Bot.extract_qualification t = toCL "As per notification") ∧
    (Scraper.extract_qualification t ∈ Scraper.quals.map Prod.fst ∨
      Scraper.extract_qualification t = toCL "As per notification") := by
  refine ⟨bot_extract_org_mem t, scraper_extract_org_mem t, ?_, ?_,
    bot_extract_qualification_mem t, scraper_extract_qualification_mem t⟩
  · rcases bot_extract_date_spec t with h | ⟨hs, _⟩
    · exact Or.inl h
    · exact Or.inr hs
  · rcases scraper_extract_date_spec t with h | ⟨hs, _⟩
    · exact Or.inl h
    · exact Or.inr hs

/-- C6: in `fetch_all_jobs` the HTML fallback runs exactly when the combined
RSS yield is below five; with five or more RSS postings the result is the
RSS accumulation alone and no HTML fetch happens. -/
theorem claim6_html_fallback_iff
    (fetchR fetchH : List Char × List Char → List Bot.Job) :
    ((Bot.fetch_all_jobs fetchR fetchH).2 = true ↔
      (Bot.rss_sources.flatMap fetchR).length < 5) ∧
    (5 ≤ (Bot.rss_sources.flatMap fetchR).length →
      Bot.fetch_all_jobs fetchR fetchH = (Bot.rss_sources.flatMap fetchR, false)) := by
  have hacc : Bot.rss_sources.foldl (fun acc s => acc ++ fetchR s) [] =
      Bot.rss_sources.flatMap fetchR := by
    rw [foldl_append_eq_flatMap]
    simp
  constructor
  · simp only [Bot.fetch_all_jobs]
    rw [hacc]
    by_cases h5 : (Bot.rss_sources.flatMap fetchR).length < 5
    · rw [if_pos h5]
      simpa using h5
    · rw [if_neg h5]
      simpa using h5
  · intro h5
    simp only [Bot.fetch_all_jobs]
    rw [hacc, if_neg (by omega)]

set_option maxRecDepth 8000 in
/-- Witness for C6: with sources yielding nothing the fallback flag is set;
with every source yielding five postings it is not, and the result is the
RSS accumulation. -/
theorem claim6_witness :
    (Bot.fetch_all_jobs (fun _ => []) (fun _ => [])).2 = true ∧
    Bot.fetch_all_jobs (fun _ => [witJob1, witJob1, witJob1, witJob1, witJob1])
        (fun _ => []) =
      (Bot.rss_sources.flatMap
        (fun _ => [witJob1, witJob1, witJob1, witJob1, witJob1]), false) := by
  constructor
  · exact (claim6_html_fallback_iff (fun _ => []) (fun _ => [])).1.mpr (by decide)
  · exact (claim6_html_fallback_iff
      (fun _ => [witJob1, witJob1, witJob1, witJob1, witJob1]) (fun _ => [])).2
      (by decide)

/-- C7 counterexample: the claim's six-tier cascade demands the diploma tier
for the input "DIPLOMA", and src/scraper.py's six-pair `_extract_qualification`
indeed returns it, but src/bot.py's `_extract_qualification` — also named by
the claim — holds only four pairs and falls back to the default on the same
input, so the two cited functions disagree and the bot.py one refutes the
claim as stated. -/
theorem claim7_counterexample :
    Bot.extract_qualification (toCL "DIPLOMA") = toCL "As per notification" ∧
    Scraper.extract_qualification (toCL "DIPLOMA") = toCL "Diploma" ∧
    Bot.extract_qualification (toCL "DIPLOMA") ≠
      Scraper.extract_qualification (toCL "DIPLOMA") ∧
    Bot.quals.length = 4 ∧ Scraper.quals.length = 6 := by
  decide

/-- C7 amended: src/scraper.py's `_extract_qualification` scans the ordered
six-pair list (10th Pass, 12th Pass, Graduate, Post Graduate, Diploma, ITI)
case-insensitively with first-matching-pair-wins semantics and returns the
default exactly when no keyword of any pair matches; src/bot.py's version
has the same first-match semantics but over only four pairs (10th Pass,
12th Pass, Graduate, Post Graduate). -/
theorem claim7_qualification_cascade (t : List Char) :
    Scraper.quals.map Prod.fst =
      [toCL "10th Pass", toCL "12th Pass", toCL "Graduate",
       toCL "Post Graduate", toCL "Diploma", toCL "ITI"] ∧
    Bot.quals.map Prod.fst =
      [toCL "10th Pass", toCL "12th Pass", toCL "Graduate",
       toCL "Post Graduate"] ∧
    Scraper.extract_qualification t =
      evalRules Scraper.quals (toCL "As per notification") t ∧
    Bot.extract_qualification t =
      evalRules Bot.quals (toCL "As per notification") t ∧
    (Scraper.extract_qualification t = toCL "As per notification" ↔
      ∀ q ∈ Scraper.quals,
        ¬(q.2.any (fun kw => containsSub (pyUpper t) kw) = true)) :=
  ⟨by decide, by decide, scraper_extract_qualification_eval t,
   bot_extract_qualification_eval t, scraper_qual_default_iff t⟩

/-- C8: `_extract_date` always returns a non-empty (hence truthy) string, so
the Python expression `_extract_date(summary) or _extract_date(title)` equals
`_extract_date(summary)` for all inputs, in both files; consequently the
`last_date` of every entry accepted by bot.py's `_parse_entry` comes from the
summary alone and the title is never consulted. -/
theorem claim8_date_fallback_dead (s t : List Char) :
    pyOr (Bot.extract_date s) (Bot.extract_date t) = Bot.extract_date s ∧
    pyOr (Scraper.extract_date s) (Scraper.extract_date t) =
      Scraper.extract_date s ∧
    (∀ (e : Bot.Entry) (source now : List Char) (j : Bot.Job),
      Bot.parse_entry e source now = some j →
      j.last_date = Bot.extract_date (pyStrip (e.summary.getD []))) := by
  refine ⟨?_, ?_, ?_⟩
  · unfold pyOr
    rw [if_neg (bot_extract_date_ne_nil s)]
  · unfold pyOr
    rw [if_neg (scraper_extract_date_ne_nil s)]
  · intro e source now j h
    simp only [Bot.parse_entry] at h
    split at h
    · simp at h
    · injection h with heq
      rw [← heq]
      show pyOr (Bot.extract_date (pyStrip (e.summary.getD [])))
        (Bot.extract_date (pyStrip (e.title.getD []))) = _
      unfold pyOr
      rw [if_neg (bot_extract_date_ne_nil _)]



/-- Witness for C8 at a concrete parsed entry. -/
theorem claim8_witness :
    Bot.parse_entry witEntry8 (toCL "ssc") (toCL "now") = some witJob8 ∧
    witJob8.last_date = Bot.extract_date (pyStrip (witEntry8.summary.getD [])) :=
  ⟨by decide,
   (claim8_date_fallback_dead [] []).2.2 witEntry8 (toCL "ssc") (toCL "now")
     witJob8 (by decide)⟩

/-- C9: `_parse_html` returns at most one candidate posting for every page
(modelled by an arbitrary selector-to-items function): the inner loop breaks
after the first valid item and the outer loop after the first contributing
selector. -/
theorem claim9_parse_html_at_most_one
    (select : List Char → List (List Char)) (source url now : List Char) :
    (Bot.parse_html select source url now).length ≤ 1 :=
  selectorScan_length_le_one select source url now Bot.selectors

/-- C10: every entry accepted by bot.py's `_parse_entry` has a stripped title
of length at least 10 — in particular non-empty — so every posting ingested
via the RSS path of bot.py satisfies a strictly stronger bound than a merely
non-empty title. -/
theorem claim10_title_min_length (e : Bot.Entry) (source now : List Char)
    (j : Bot.Job) (h : Bot.parse_entry e source now = some j) :
    10 ≤ j.title.length ∧ j.title ≠ [] := by
  simp only [Bot.parse_entry] at h
  split at h
  · simp at h
  · rename_i hcond
    rw [Bool.or_eq_true, not_or] at hcond
    obtain ⟨h1, h2⟩ := hcond
    injection h with heq
    rw [← heq]
    have hlen : ¬(pyStrip (e.title.getD [])).length < 10 := by
      simpa using h2
    constructor
    · show 10 ≤ (pyStrip (e.title.getD [])).length
      omega
    · show pyStrip (e.title.getD []) ≠ []
      intro hnil
      apply hlen
      rw [hnil]
      simp



/-- Witness for C10: a concrete accepted entry whose stored title has length
at least 10. -/
theorem claim10_witness :
    Bot.parse_entry witEntry10 (toCL "upsc") (toCL "now") = some witJob10 ∧
    10 ≤ witJob10.title.length :=
  ⟨by decide,
   (claim10_title_min_length witEntry10 (toCL "upsc") (toCL "now") witJob10
     (by decide)).1⟩

example : Bot.extract_org (toCL "SSC CGL 2025") = toCL "SSC" := by decide
example : Bot.extract_org (toCL "hello") = toCL "Government of India" := by decide
example : Bot.extract_qualification (toCL "DIPLOMA") = toCL "As per notification" := by decide
example : Scraper.extract_qualification (toCL "DIPLOMA") = toCL "Diploma" := by decide
example : Scraper.extract_org (toCL "Railway jobs") = toCL "RRB" := by decide
example : Bot.extract_date (toCL "") = toCL "Check notification" := by decide
example : Bot.extract_date (toCL "Last Date: 12-08-2025") = toCL "12-08-2025" := by decide
example : Bot.extract_date (toCL "LAST DATE:  05.06.2024!") = toCL "05.06.2024" := by decide
example : Bot.extract_date (toCL "apply by 12/8/25") = toCL "Check notification" := by decide
example : Bot.extract_date (toCL "closing 15 March 2025 ok") = toCL "15 March 2025" := by decide
example : Bot.extract_date (toCL "x 1-2-20255") = toCL "1-2-2025" := by decide
example : Bot.extract_date (toCL "a123-4-2025b") = toCL "23-4-2025" := by decide
example : Scraper.extract_date (toCL "Apply before: 3/4/2026") = toCL "3/4/2026" := by decide
example : Scraper.extract_date (toCL "15 March 2025") = toCL "Check notification" := by decide
example : Bot.extract_date (toCL "Last Date 7.7.77 then 1/1/2031") = toCL "7.7.77" := by decide
example : Bot.extract_date (toCL "Last Date:1-2-345") = toCL "1-2-345" := by decide
example : Bot.extract_date (toCL "Last  Date: 1-1-2000") = toCL "1-1-2000" := by decide
example : Bot.extract_date (toCL "Last Date: 123-4-2025") = toCL "23-4-2025" := by decide
example : Bot.extract_date (toCL "last date\t\n 9/9/99") = toCL "9/9/99" := by decide
example : Bot.extract_date (toCL "31 december 2030") = toCL "31 december 2030" := by decide
example : Bot.extract_date (toCL "5 May2027") = toCL "Check notification" := by decide
example : Bot.extract_date (toCL "5  May  2027") = toCL "5  May  2027" := by decide
example : Bot.extract_date (toCL "1-1-11111") = toCL "1-1-1111" := by decide
example : Bot.extract_date (toCL "Last Date: 1.2.345678") = toCL "1.2.3456" := by decide
example : Bot.extract_date (toCL "15 MARCHx 2025") = toCL "15 MARCHx 2025" := by decide
example : Bot.extract_date (toCL "Last Date: 12-08-2025 and 01-01-2024") = toCL "12-08-2025" := by decide

end GovtJobBot
